import Mathlib

/-!
Verification of the simulation core of the `ai-racism` 2D game engine
(spatial quad-tree index, narrow-phase collision dispatcher, physics
integrator, raycaster, frame orchestrator) against its natural-language
specification.

The Python source is shallowly embedded:
* `pygame.Vector2` (a pair of floats) is embedded as a pair of rationals
  `Vec`; every arithmetic operation used by the engine is exact rational
  arithmetic except `math.sqrt` / `Vector2.normalize`, which are embedded
  by `ratSqrt` (exact on perfect-square rationals; every claim that is
  settled numerically below only evaluates square roots of perfect
  squares).
* `pygame.Rect` stores integer coordinates; it is embedded as a record of
  four integers, with pygame's truncation of float arguments embedded by
  `pyTrunc` and pygame's `colliderect` overlap test embedded verbatim
  (strict inequalities; zero-size rectangles never collide).
* Python `float('inf')` (the default `max_distance` of ray queries) is
  embedded as the `none` case of an `Option ℚ` bound.
* Mutable objects are embedded by reference: game objects are identified
  by a natural-number reference, an explicit `Heap` maps references to the
  object state, and the containers (quad tree, registries) store
  references, exactly as the Python containers store object references.
* Exceptions (`NotImplementedError` of the collision dispatcher) are
  embedded with `Except Unit`; Python code without a `try/except` is
  embedded in the `Except` monad so the error propagates.
-/

/-- Truncation toward zero, as pygame applies to float rectangle
coordinates (C `int` cast). All concrete scenarios below use integral
values, where truncation is the identity. -/
def pyTrunc (q : ℚ) : ℤ :=
  if 0 ≤ q then ⌊q⌋ else ⌈q⌉

/-- Python floor division `//` on integers (pygame rect midpoints). -/
def pyFloorDiv (a b : ℤ) : ℤ := Int.fdiv a b

/-- Embeds `math.sqrt`. Exact whenever the argument is the square of a
rational (in lowest terms both numerator and denominator are perfect
squares); every numeric result proved below only takes square roots of
perfect squares, so no claim depends on the inexact branch. -/
def ratSqrt (q : ℚ) : ℚ :=
  ((Nat.sqrt q.num.toNat : ℤ) : ℚ) / ((Nat.sqrt q.den : ℤ) : ℚ)

/-- `t <= max_distance` where `none` embeds `float('inf')`. -/
def leMax (t : ℚ) : Option ℚ → Bool
  | none => true
  | some d => decide (t ≤ d)

/-- Embedding of `pygame.Vector2`: a pair of rationals. -/
structure Vec where
  x : ℚ
  y : ℚ
deriving DecidableEq, Repr

namespace Vec

def add (a b : Vec) : Vec := ⟨a.x + b.x, a.y + b.y⟩
def sub (a b : Vec) : Vec := ⟨a.x - b.x, a.y - b.y⟩
def smul (a : Vec) (k : ℚ) : Vec := ⟨a.x * k, a.y * k⟩
def divQ (a : Vec) (k : ℚ) : Vec := ⟨a.x / k, a.y / k⟩
def neg (a : Vec) : Vec := ⟨-a.x, -a.y⟩
def dot (a b : Vec) : ℚ := a.x * b.x + a.y * b.y
def cross (a b : Vec) : ℚ := a.x * b.y - a.y * b.x
def lengthSq (a : Vec) : ℚ := a.x * a.x + a.y * a.y

/-- `Vector2.length()`, via the embedded square root. -/
def length (a : Vec) : ℚ := ratSqrt a.lengthSq

/-- `Vector2.normalize()`. On the zero vector pygame raises; the engine
never normalizes a zero vector on the paths verified here, and the `0`
result of division by zero stands in for that unreachable raise. -/
def normalize (a : Vec) : Vec := a.divQ a.length

def zero : Vec := ⟨0, 0⟩

end Vec

/-- Embedding of `pygame.Rect`: integer position and size. -/
structure Rect where
  x : ℤ
  y : ℤ
  w : ℤ
  h : ℤ
deriving DecidableEq, Repr

namespace Rect

def left (r : Rect) : ℤ := r.x
def right (r : Rect) : ℤ := r.x + r.w
def top (r : Rect) : ℤ := r.y
def bottom (r : Rect) : ℤ := r.y + r.h

/-- pygame `Rect.colliderect`: strict overlap on both axes; rectangles
that only touch, or have zero width/height, do not collide. -/
def colliderect (a b : Rect) : Bool :=
  decide (a.x < b.x + b.w) && decide (a.x + a.w > b.x) &&
  decide (a.y < b.y + b.h) && decide (a.y + a.h > b.y)

/-- Rect construction from float (here: rational) arguments, with
pygame's truncation of each coordinate. -/
def ofRat (x y w h : ℚ) : Rect :=
  ⟨pyTrunc x, pyTrunc y, pyTrunc w, pyTrunc h⟩

/-- `Rect.center` (pygame computes it with integer floor division). -/
def center (r : Rect) : Vec :=
  ⟨((r.x + pyFloorDiv r.w 2 : ℤ) : ℚ), ((r.y + pyFloorDiv r.h 2 : ℤ) : ℚ)⟩

/-- A rational point lying inside the closed box of a rect. Used to state
what "the boxes overlap" means independently of the overlap test. -/
def containsPt (r : Rect) (p : Vec) : Prop :=
  (r.x : ℚ) ≤ p.x ∧ p.x ≤ ((r.x + r.w : ℤ) : ℚ) ∧
  (r.y : ℚ) ≤ p.y ∧ p.y ≤ ((r.y + r.h : ℤ) : ℚ)

instance (r : Rect) (p : Vec) : Decidable (r.containsPt p) := by
  unfold containsPt; infer_instance

end Rect

/-- `interfaces.RaycastHit`. -/
structure RaycastHit where
  point : Vec
  normal : Vec
  distance : ℚ
deriving DecidableEq, Repr

/-- `interfaces.CollisionInfo`. -/
structure CollisionInfo where
  contact_points : List Vec
  normal : Vec
  penetration : ℚ
deriving DecidableEq, Repr

/-- `interfaces.GameObjectUpdateRes`. -/
structure GameObjectUpdateRes where
  object_moved : Bool
deriving DecidableEq, Repr

/-! ## Shapes (`engine/primitives.py`) -/

/-- `primitives.CircleShape`: position and radius. -/
structure CircleShape where
  position : Vec
  radius : ℚ
deriving DecidableEq, Repr

/-- `primitives.RectShape`: wraps a pygame rect; its `position` is the
rect center. -/
structure RectShape where
  rect : Rect
deriving DecidableEq, Repr

def RectShape.position (s : RectShape) : Vec := s.rect.center

/-- `primitives.LineShape`. -/
structure LineShape where
  start : Vec
  stop : Vec
deriving DecidableEq, Repr

def LineShape.position (s : LineShape) : Vec :=
  (s.start.add s.stop).divQ 2

/-- `primitives.PolygonShape`: centroid position plus vertex list. -/
structure PolygonShape where
  position : Vec
  vertices : List Vec
deriving DecidableEq, Repr

/-- Centroid as computed in `PolygonShape.__init__`:
`sum(vertices, Vector2(0,0)) / len(vertices)`. Total here (yields the
junk value `0/0 = 0` on the empty list, where the Python code raises —
see `PolygonShape.init`). -/
def polygonCentroid (vs : List Vec) : Vec :=
  (vs.foldl Vec.add Vec.zero).divQ (vs.length : ℚ)

/-- `PolygonShape.__init__`. The only failing input is the empty vertex
list, where `sum(...) / len(vertices)` raises `ZeroDivisionError`
(embedded as `none`). There is no ≥ 3 vertex-count validation. -/
def PolygonShape.init (vs : List Vec) : Option PolygonShape :=
  if vs.length = 0 then none
  else some ⟨polygonCentroid vs, vs⟩

/-- Constructing the 4-vertex polygon in `rect_intersects_polygon`
(the list is never empty there, so `__init__` cannot raise). -/
def polygonOfVertices (vs : List Vec) : PolygonShape :=
  ⟨polygonCentroid vs, vs⟩

/-- `CircleShape.get_bounding_rect`. -/
def CircleShape.get_bounding_rect (s : CircleShape) : Rect :=
  Rect.ofRat (s.position.x - s.radius) (s.position.y - s.radius)
    (s.radius * 2) (s.radius * 2)

/-- `LineShape.get_bounding_rect` (`width or 1`: a coordinate-exact zero
extent is replaced by 1). -/
def LineShape.get_bounding_rect (s : LineShape) : Rect :=
  let l := min s.start.x s.stop.x
  let t := min s.start.y s.stop.y
  let w := |s.start.x - s.stop.x|
  let h := |s.start.y - s.stop.y|
  Rect.ofRat l t (if w = 0 then 1 else w) (if h = 0 then 1 else h)

/-- `PolygonShape.get_bounding_rect`. -/
def PolygonShape.get_bounding_rect (s : PolygonShape) : Rect :=
  match s.vertices with
  | [] => ⟨0, 0, 0, 0⟩
  | v :: rest =>
    let minX := rest.foldl (fun m u => min m u.x) v.x
    let maxX := rest.foldl (fun m u => max m u.x) v.x
    let minY := rest.foldl (fun m u => min m u.y) v.y
    let maxY := rest.foldl (fun m u => max m u.y) v.y
    Rect.ofRat minX minY (maxX - minX) (maxY - minY)

/-! ### Ray intersection -/

/-- The two quadratic roots computed in `CircleShape.intersects_ray`
(before range admissibility is applied): `t1` is the smaller root
`(-b - sqrt(disc))/(2a)`, `t2` the larger. -/
def circleRayRoots (s : CircleShape) (origin direction : Vec) : ℚ × ℚ :=
  let oc := origin.sub s.position
  let a := direction.dot direction
  let b := 2 * oc.dot direction
  let disc := b * b - 4 * a * (oc.dot oc - s.radius * s.radius)
  let sq := ratSqrt disc
  ((-b - sq) / (2 * a), (-b + sq) / (2 * a))

/-- `CircleShape.intersects_ray`: quadratic solve; take `t1` if it is
admissible (`0 ≤ t1 ≤ max_distance`), else `t2` if admissible, else no
hit. `max_distance = none` embeds `float('inf')`. -/
def CircleShape.intersects_ray (s : CircleShape) (origin direction : Vec)
    (max_distance : Option ℚ) : Option RaycastHit :=
  let oc := origin.sub s.position
  let a := direction.dot direction
  let b := 2 * oc.dot direction
  let c := oc.dot oc - s.radius * s.radius
  let disc := b * b - 4 * a * c
  if disc < 0 then none
  else
    let p := circleRayRoots s origin direction
    let t? : Option ℚ :=
      if 0 ≤ p.1 ∧ leMax p.1 max_distance then some p.1
      else if 0 ≤ p.2 ∧ leMax p.2 max_distance then some p.2
      else none
    match t? with
    | none => none
    | some t =>
      let hit_point := origin.add (direction.smul t)
      some ⟨hit_point, (hit_point.sub s.position).normalize, t⟩

/-- `RectShape.intersects_ray` (slab method). The Python code uses
`float('±inf')` slab bounds on a zero direction component; the four-way
case split below is the exact finite residue of that `max`/`min`
arithmetic with infinities. -/
def RectShape.intersects_ray (s : RectShape) (origin direction : Vec)
    (max_distance : Option ℚ) : Option RaycastHit :=
  if direction.x = 0 ∧ direction.y = 0 then none
  else
    let l : ℚ := (s.rect.left : ℚ)
    let r : ℚ := (s.rect.right : ℚ)
    let t_ : ℚ := (s.rect.top : ℚ)
    let b : ℚ := (s.rect.bottom : ℚ)
    let finish : ℚ → ℚ → Option RaycastHit := fun t_min t_max =>
      if t_max < 0 ∨ t_min > t_max then none
      else
        let t := if 0 ≤ t_min then t_min else t_max
        if ¬ leMax t max_distance then none
        else
          let hp := origin.add (direction.smul t)
          let eps : ℚ := 1 / 1000000
          let normal : Vec :=
            if |hp.x - l| < eps then ⟨-1, 0⟩
            else if |hp.x - r| < eps then ⟨1, 0⟩
            else if |hp.y - t_| < eps then ⟨0, -1⟩
            else if |hp.y - b| < eps then ⟨0, 1⟩
            else ⟨0, 0⟩
          some ⟨hp, normal, t⟩
    if direction.x = 0 then
      -- ray parallel to the y axis: must already be inside the x slab
      if origin.x < l ∨ origin.x > r then none
      else
        let tmy := min ((t_ - origin.y) / direction.y) ((b - origin.y) / direction.y)
        let tMy := max ((t_ - origin.y) / direction.y) ((b - origin.y) / direction.y)
        finish tmy tMy
    else if direction.y = 0 then
      if origin.y < t_ ∨ origin.y > b then none
      else
        let tmx := min ((l - origin.x) / direction.x) ((r - origin.x) / direction.x)
        let tMx := max ((l - origin.x) / direction.x) ((r - origin.x) / direction.x)
        finish tmx tMx
    else
      let tmx := min ((l - origin.x) / direction.x) ((r - origin.x) / direction.x)
      let tMx := max ((l - origin.x) / direction.x) ((r - origin.x) / direction.x)
      let tmy := min ((t_ - origin.y) / direction.y) ((b - origin.y) / direction.y)
      let tMy := max ((t_ - origin.y) / direction.y) ((b - origin.y) / direction.y)
      finish (max tmx tmy) (min tMx tMy)

/-- `LineShape.intersects_ray` (perpendicular-projection
parametrization; note the source checks `v <= 0` and
`t > max_distance` but never `t ≥ 0`). -/
def LineShape.intersects_ray (s : LineShape) (origin direction : Vec)
    (max_distance : Option ℚ) : Option RaycastHit :=
  let line_dir := s.stop.sub s.start
  let h : Vec := ⟨-direction.y, direction.x⟩
  let a := line_dir.dot h
  if |a| < 1 / 10000000000 then none
  else
    let f := 1 / a
    let sv := origin.sub s.start
    let u := f * sv.dot h
    if u < 0 ∨ u > 1 then none
    else
      let q : Vec := ⟨-line_dir.y, line_dir.x⟩
      let v := f * direction.dot q
      if v ≤ 0 then none
      else
        let t := f * sv.dot q
        if ¬ leMax t max_distance then none
        else
          let hit_point := origin.add (direction.smul t)
          some ⟨hit_point, (⟨-line_dir.y, line_dir.x⟩ : Vec).normalize, t⟩

/-- The cyclic edge list `(vertices[i], vertices[(i+1) % n])` shared by
the polygon algorithms. -/
def polygonEdges (vs : List Vec) : List (Vec × Vec) :=
  match vs with
  | [] => []
  | v :: rest => (v :: rest).zip (rest ++ [v])

/-- `PolygonShape.intersects_ray`: per-edge ray/segment test keeping the
globally nearest admissible hit; `min_t` starts at `float('inf')`,
embedded as `none`. -/
def PolygonShape.intersects_ray (s : PolygonShape) (origin direction : Vec)
    (max_distance : Option ℚ) : Option RaycastHit :=
  let step : Option (ℚ × Vec) → Vec × Vec → Option (ℚ × Vec) :=
    fun acc e =>
      let v1 := e.1
      let v2 := e.2
      let edge_dir := v2.sub v1
      let h : Vec := ⟨-direction.y, direction.x⟩
      let a := edge_dir.dot h
      if |a| < 1 / 10000000000 then acc
      else
        let f := 1 / a
        let sv := origin.sub v1
        let u := f * sv.dot h
        if u < 0 ∨ u > 1 then acc
        else
          let q : Vec := ⟨-edge_dir.y, edge_dir.x⟩
          let v := f * direction.dot q
          if 0 < v then
            let t := f * sv.dot q
            let better : Bool := match acc with
              | none => true
              | some prev => decide (t < prev.1)
            if better && leMax t max_distance then
              let edge_normal := (⟨-edge_dir.y, edge_dir.x⟩ : Vec).normalize
              let edge_center := (v1.add v2).divQ 2
              let to_center := s.position.sub edge_center
              let edge_normal :=
                if edge_normal.dot to_center < 0 then edge_normal.neg else edge_normal
              some (t, edge_normal)
            else acc
          else acc
  match (polygonEdges s.vertices).foldl step none with
  | none => none
  | some (t, n) => some ⟨origin.add (direction.smul t), n, t⟩

/-- The closed variant type of collision shapes (`CollisionShape`
subclasses), for storage in game objects and containers. -/
inductive Shape where
  | circle (s : CircleShape)
  | rect (s : RectShape)
  | line (s : LineShape)
  | polygon (s : PolygonShape)
deriving DecidableEq, Repr

def Shape.get_bounding_rect : Shape → Rect
  | .circle s => s.get_bounding_rect
  | .rect s => s.rect
  | .line s => s.get_bounding_rect
  | .polygon s => s.get_bounding_rect

def Shape.intersects_ray (sh : Shape) (origin direction : Vec)
    (max_distance : Option ℚ) : Option RaycastHit :=
  match sh with
  | .circle s => s.intersects_ray origin direction max_distance
  | .rect s => s.intersects_ray origin direction max_distance
  | .line s => s.intersects_ray origin direction max_distance
  | .polygon s => s.intersects_ray origin direction max_distance

def Shape.position : Shape → Vec
  | .circle s => s.position
  | .rect s => s.position
  | .line s => s.position
  | .polygon s => s.position

/-! ## Physics (`engine/physics.py`) -/

/-- `physics.PhysicsBody` dataclass state. -/
structure PhysicsBody where
  position : Vec
  velocity : Vec
  acceleration : Vec
  mass : ℚ
  drag : ℚ
  friction : ℚ
  is_static : Bool
  rotation : ℚ
  angular_velocity : ℚ
  angular_drag : ℚ
  enable_rotation : Bool
  forces : Vec
  torque : ℚ
  inverse_mass : ℚ
deriving DecidableEq, Repr

/-- Dataclass construction followed by `__post_init__`: `forces` starts
at zero and `inverse_mass` is `0` for a static body or `mass ≤ 0`, else
`1/mass`. -/
def mkPhysicsBody (position velocity acceleration : Vec) (mass drag friction : ℚ)
    (is_static : Bool) (rotation angular_velocity angular_drag : ℚ)
    (enable_rotation : Bool) (torque : ℚ) : PhysicsBody :=
  { position := position, velocity := velocity, acceleration := acceleration
    mass := mass, drag := drag, friction := friction, is_static := is_static
    rotation := rotation, angular_velocity := angular_velocity
    angular_drag := angular_drag, enable_rotation := enable_rotation
    forces := Vec.zero, torque := torque
    inverse_mass := if is_static ∨ mass ≤ 0 then 0 else 1 / mass }

/-- `PhysicsBody.apply_force`: accumulate unless static. -/
def PhysicsBody.apply_force (b : PhysicsBody) (force : Vec) : PhysicsBody :=
  if b.is_static then b else { b with forces := b.forces.add force }

/-- `PhysicsBody.apply_impulse`: add `impulse * inverse_mass` to the
velocity unless static. -/
def PhysicsBody.apply_impulse (b : PhysicsBody) (impulse : Vec) : PhysicsBody :=
  if b.is_static then b
  else { b with velocity := b.velocity.add (impulse.smul b.inverse_mass) }

/-- `PhysicsBody.integrate`: static bodies return immediately with
`object_moved = False` and no state change; otherwise force → drag and
friction → semi-implicit Euler → optional rotation → clear forces →
movement flag by exact comparison with the tick's starting values. -/
def PhysicsBody.integrate (b : PhysicsBody) (dt : ℚ) :
    PhysicsBody × GameObjectUpdateRes :=
  if b.is_static then (b, ⟨false⟩)
  else
    let prev_position := b.position
    let prev_rotation := b.rotation
    let acc := b.forces.smul b.inverse_mass
    let acc := if 0 < b.friction then acc.sub (b.velocity.smul b.friction) else acc
    let acc := if 0 < b.drag then acc.sub (b.velocity.smul b.drag) else acc
    let velocity := b.velocity.add (acc.smul dt)
    let position := b.position.add (velocity.smul dt)
    let angular_velocity :=
      if b.enable_rotation then b.angular_velocity * max 0 (1 - b.angular_drag * dt)
      else b.angular_velocity
    let rot :=
      if b.enable_rotation then b.rotation + angular_velocity * dt else b.rotation
    let b' := { b with
      velocity := velocity, position := position
      angular_velocity := angular_velocity, rotation := rot
      forces := Vec.zero, acceleration := acc }
    let position_changed : Bool := decide (position ≠ prev_position)
    let rotation_changed : Bool := b.enable_rotation && decide (rot ≠ prev_rotation)
    (b', ⟨position_changed || rotation_changed⟩)

/-! ## Narrow-phase collision algorithms (`engine/collision.py`) -/

/-- `list.index(min(list))` for a four-element list: the first index
attaining the minimum. -/
def firstMinIdx4 {α : Type} [LinearOrder α] (a b c d : α) : ℕ :=
  if a ≤ b ∧ a ≤ c ∧ a ≤ d then 0
  else if b ≤ c ∧ b ≤ d then 1
  else if c ≤ d then 2
  else 3

/-- `circle_intersects_circle`. -/
def circle_intersects_circle (s1 s2 : CircleShape) : Option CollisionInfo :=
  let distance_vector := s2.position.sub s1.position
  let distance := distance_vector.length
  let combined_radius := s1.radius + s2.radius
  if distance > combined_radius then none
  else
    let nd : Vec × ℚ :=
      if distance < 1 / 1000000 then (⟨1, 0⟩, combined_radius)
      else (distance_vector.divQ distance, combined_radius - distance)
    let contact_point := s1.position.add (nd.1.smul s1.radius)
    some ⟨[contact_point], nd.1, nd.2⟩

/-- `rect_intersects_circle`: clamp the circle center to the rectangle;
if the center is inside, pick the nearest edge by the first-minimum
index. -/
def rect_intersects_circle (s1 : RectShape) (s2 : CircleShape) : Option CollisionInfo :=
  let r := s1.rect
  let closest_x := max (r.x : ℚ) (min s2.position.x ((r.x + r.w : ℤ) : ℚ))
  let closest_y := max (r.y : ℚ) (min s2.position.y ((r.y + r.h : ℤ) : ℚ))
  let closest_point : Vec := ⟨closest_x, closest_y⟩
  let distance_vector := s2.position.sub closest_point
  let distance := distance_vector.length
  if distance > s2.radius then none
  else if distance < 1 / 1000000 then
    let dl := s2.position.x - (r.x : ℚ)
    let dr := ((r.x + r.w : ℤ) : ℚ) - s2.position.x
    let dt := s2.position.y - (r.y : ℚ)
    let db := ((r.y + r.h : ℤ) : ℚ) - s2.position.y
    let idx := firstMinIdx4 dl dr dt db
    let nd : Vec × ℚ :=
      match idx with
      | 0 => (⟨-1, 0⟩, dl)
      | 1 => (⟨1, 0⟩, dr)
      | 2 => (⟨0, -1⟩, dt)
      | _ => (⟨0, 1⟩, db)
    some ⟨[s2.position.sub (nd.1.smul s2.radius)], nd.1, s2.radius + nd.2⟩
  else
    some ⟨[closest_point], distance_vector.divQ distance, s2.radius - distance⟩

/-- `line_intersects_circle`: clamp the projection of the center onto
the segment, then point–circle test. -/
def line_intersects_circle (s1 : LineShape) (s2 : CircleShape) : Option CollisionInfo :=
  let line_vec := s1.stop.sub s1.start
  let to_circle := s2.position.sub s1.start
  let line_length_sq := line_vec.lengthSq
  if line_length_sq < 1 / 1000000 then
    let distance := (s2.position.sub s1.start).length
    if distance > s2.radius then none
    else
      let normal :=
        if distance > 1 / 1000000 then (s2.position.sub s1.start).normalize
        else (⟨1, 0⟩ : Vec)
      some ⟨[s1.start], normal, s2.radius - distance⟩
  else
    let t := max 0 (min 1 (to_circle.dot line_vec / line_length_sq))
    let closest_point := s1.start.add (line_vec.smul t)
    let distance_vector := s2.position.sub closest_point
    let distance := distance_vector.length
    if distance > s2.radius then none
    else
      let normal :=
        if distance < 1 / 1000000 then (⟨-line_vec.y, line_vec.x⟩ : Vec).normalize
        else distance_vector.divQ distance
      some ⟨[closest_point], normal, s2.radius - distance⟩

/-- Accumulator of the polygon–circle SAT loop (`min_penetration` starts
at `float('inf')`, embedded as `none`). -/
structure PcState where
  min_pen : Option ℚ
  normal : Vec
  contact : Vec
deriving DecidableEq, Repr

/-- The per-edge SAT loop of `polygon_intersects_circle`; `none` means a
separating axis was found (early `return None`). The projection pass
starts from the current edge's first vertex and then folds
`vertices[1:]`, exactly as the source does. -/
def polyCircleEdgeLoop (vsAll : List Vec) (s2 : CircleShape) :
    List (Vec × Vec) → PcState → Option PcState
  | [], st => some st
  | (v1, v2) :: rest, st =>
    let edge := v2.sub v1
    let normal := (⟨-edge.y, edge.x⟩ : Vec).normalize
    let start := v1.dot normal
    let mm := (vsAll.drop 1).foldl
      (fun (mm : ℚ × ℚ) v => (min mm.1 (v.dot normal), max mm.2 (v.dot normal)))
      (start, start)
    let circle_center_proj := s2.position.dot normal
    let circle_min := circle_center_proj - s2.radius
    let circle_max := circle_center_proj + s2.radius
    if mm.2 < circle_min ∨ circle_max < mm.1 then none
    else
      let pen := min (mm.2 - circle_min) (circle_max - mm.1)
      let better : Bool := match st.min_pen with
        | none => true
        | some mp => decide (pen < mp)
      let st' :=
        if better then
          let line_to_circle := s2.position.sub v1
          let t := max 0 (min 1 (line_to_circle.dot edge / edge.lengthSq))
          ({ min_pen := some pen, normal := normal, contact := v1.add (edge.smul t) } : PcState)
        else st
      polyCircleEdgeLoop vsAll s2 rest st'

/-- `polygon_intersects_circle` (SAT over edge normals, then a direct
vertex-distance pass keeping the smaller penetration). The `getD 0`
fallback stands for the unreachable `float('inf')` of a polygon without
edges. -/
def polygon_intersects_circle (s1 : PolygonShape) (s2 : CircleShape) : Option CollisionInfo :=
  match polyCircleEdgeLoop s1.vertices s2 (polygonEdges s1.vertices)
      ⟨none, Vec.zero, Vec.zero⟩ with
  | none => none
  | some st =>
    let st := s1.vertices.foldl (fun st v =>
      let to_vertex := v.sub s2.position
      let distance := to_vertex.length
      if distance < s2.radius then
        let pen := s2.radius - distance
        let better : Bool := match st.min_pen with
          | none => true
          | some mp => decide (pen < mp)
        if better then
          ({ min_pen := some pen
             normal := if distance > 1 / 1000000 then to_vertex.normalize else ⟨1, 0⟩
             contact := v } : PcState)
        else st
      else st) st
    some ⟨[st.contact], st.normal, st.min_pen.getD 0⟩

/-- `rect_intersects_rect`: strict separation test, the four directional
overlaps, first-minimum index picks the axis. -/
def rect_intersects_rect (s1 s2 : RectShape) : Option CollisionInfo :=
  let r1 := s1.rect
  let r2 := s2.rect
  if r1.x + r1.w < r2.x ∨ r2.x + r2.w < r1.x ∨
     r1.y + r1.h < r2.y ∨ r2.y + r2.h < r1.y then none
  else
    let left_overlap := (r1.x + r1.w) - r2.x
    let right_overlap := (r2.x + r2.w) - r1.x
    let top_overlap := (r1.y + r1.h) - r2.y
    let bottom_overlap := (r2.y + r2.h) - r1.y
    let min_penetration :=
      min (min left_overlap right_overlap) (min top_overlap bottom_overlap)
    let idx := firstMinIdx4 left_overlap right_overlap top_overlap bottom_overlap
    let nc : Vec × Vec :=
      match idx with
      | 0 => (⟨-1, 0⟩, ⟨(r2.x : ℚ), (r1.y : ℚ) + (r1.h : ℚ) / 2⟩)
      | 1 => (⟨1, 0⟩, ⟨((r2.x + r2.w : ℤ) : ℚ), (r1.y : ℚ) + (r1.h : ℚ) / 2⟩)
      | 2 => (⟨0, -1⟩, ⟨(r1.x : ℚ) + (r1.w : ℚ) / 2, (r2.y : ℚ)⟩)
      | _ => (⟨0, 1⟩, ⟨(r1.x : ℚ) + (r1.w : ℚ) / 2, ((r2.y + r2.h : ℤ) : ℚ)⟩)
    some ⟨[nc.2], nc.1, ((min_penetration : ℤ) : ℚ)⟩

/-- `line_line_intersection` helper (parallel lines rejected by the
`1e-6` epsilon on the denominator). -/
def line_line_intersection (p1 p2 p3 p4 : Vec) : Option Vec :=
  let denom := (p1.x - p2.x) * (p3.y - p4.y) - (p1.y - p2.y) * (p3.x - p4.x)
  if |denom| < 1 / 1000000 then none
  else
    let t := ((p1.x - p3.x) * (p3.y - p4.y) - (p1.y - p3.y) * (p3.x - p4.x)) / denom
    let u := -((p1.x - p2.x) * (p1.y - p3.y) - (p1.y - p2.y) * (p1.x - p3.x)) / denom
    if 0 ≤ t ∧ t ≤ 1 ∧ 0 ≤ u ∧ u ≤ 1 then
      some ⟨p1.x + t * (p2.x - p1.x), p1.y + t * (p2.y - p1.y)⟩
    else none

/-- The `point_in_rect` helper local to `rect_intersects_line`. -/
def point_in_rect (point : Vec) (rect : Rect) : Bool :=
  decide ((rect.x : ℚ) ≤ point.x) && decide (point.x ≤ ((rect.x + rect.w : ℤ) : ℚ)) &&
  decide ((rect.y : ℚ) ≤ point.y) && decide (point.y ≤ ((rect.y + rect.h : ℤ) : ℚ))

/-- `rect_intersects_line`: fully-inside case picks the nearest edge;
otherwise the first intersecting rectangle edge wins, with the fixed
nominal penetration `0.1` (embedded as `1/10`). -/
def rect_intersects_line (s1 : RectShape) (s2 : LineShape) : Option CollisionInfo :=
  let r := s1.rect
  if point_in_rect s2.start r && point_in_rect s2.stop r then
    let line_center := (s2.start.add s2.stop).divQ 2
    let dl := line_center.x - (r.x : ℚ)
    let dr := ((r.x + r.w : ℤ) : ℚ) - line_center.x
    let dt := line_center.y - (r.y : ℚ)
    let db := ((r.y + r.h : ℤ) : ℚ) - line_center.y
    let idx := firstMinIdx4 dl dr dt db
    let nd : Vec × ℚ :=
      match idx with
      | 0 => (⟨-1, 0⟩, dl)
      | 1 => (⟨1, 0⟩, dr)
      | 2 => (⟨0, -1⟩, dt)
      | _ => (⟨0, 1⟩, db)
    some ⟨[line_center], nd.1, nd.2⟩
  else
    let tl : Vec := ⟨(r.x : ℚ), (r.y : ℚ)⟩
    let tr : Vec := ⟨((r.x + r.w : ℤ) : ℚ), (r.y : ℚ)⟩
    let br : Vec := ⟨((r.x + r.w : ℤ) : ℚ), ((r.y + r.h : ℤ) : ℚ)⟩
    let bl : Vec := ⟨(r.x : ℚ), ((r.y + r.h : ℤ) : ℚ)⟩
    let rect_edges : List ((Vec × Vec) × Vec) :=
      [((tl, tr), ⟨0, -1⟩), ((tr, br), ⟨1, 0⟩), ((br, bl), ⟨0, 1⟩), ((bl, tl), ⟨-1, 0⟩)]
    rect_edges.findSome? (fun e =>
      (line_line_intersection s2.start s2.stop e.1.1 e.1.2).map (fun p =>
        ⟨[p], e.2, 1 / 10⟩))

/-- `line_intersects_line` (fixed nominal penetration `0.1`). -/
def line_intersects_line (s1 s2 : LineShape) : Option CollisionInfo :=
  (line_line_intersection s1.start s1.stop s2.start s2.stop).map (fun p =>
    let line1_vec := s1.stop.sub s1.start
    ⟨[p], (⟨-line1_vec.y, line1_vec.x⟩ : Vec).normalize, 1 / 10⟩)

/-- `line_intersects_polygon`: the first intersecting polygon edge
wins. -/
def line_intersects_polygon (s1 : LineShape) (s2 : PolygonShape) : Option CollisionInfo :=
  (polygonEdges s2.vertices).findSome? (fun e =>
    (line_line_intersection s1.start s1.stop e.1 e.2).map (fun p =>
      let edge_vec := e.2.sub e.1
      ⟨[p], (⟨-edge_vec.y, edge_vec.x⟩ : Vec).normalize, 1 / 10⟩))

/-- Projection of a vertex list onto an axis as in the SAT loops:
start from `vertices[0]`, fold `vertices[1:]`. The empty case is
unreachable (the source indexes `vertices[0]`). -/
def projectOnto (vs : List Vec) (normal : Vec) : ℚ × ℚ :=
  match vs with
  | [] => (0, 0)
  | v :: rest => rest.foldl
      (fun mm u => (min mm.1 (u.dot normal), max mm.2 (u.dot normal)))
      (v.dot normal, v.dot normal)

/-- The SAT loop of `polygon_intersects_polygon` over the edge normals
of both polygons; `none` means a separating axis. -/
def polyPolyLoop (s1 s2 : PolygonShape) :
    List (Vec × Vec) → Option ℚ × Vec → Option (Option ℚ × Vec)
  | [], st => some st
  | (v1, v2) :: rest, st =>
    let edge := v2.sub v1
    let normal := (⟨-edge.y, edge.x⟩ : Vec).normalize
    let p1 := projectOnto s1.vertices normal
    let p2 := projectOnto s2.vertices normal
    if p1.2 < p2.1 ∨ p2.2 < p1.1 then none
    else
      let pen := min (p1.2 - p2.1) (p2.2 - p1.1)
      let better : Bool := match st.1 with
        | none => true
        | some mp => decide (pen < mp)
      polyPolyLoop s1 s2 rest (if better then (some pen, normal) else st)

/-- `polygon_intersects_polygon` (SAT; contact point approximated as the
midpoint of the reference positions). -/
def polygon_intersects_polygon (s1 s2 : PolygonShape) : Option CollisionInfo :=
  match polyPolyLoop s1 s2 (polygonEdges s1.vertices ++ polygonEdges s2.vertices)
      (none, Vec.zero) with
  | none => none
  | some st =>
    some ⟨[(s1.position.add s2.position).divQ 2], st.2, st.1.getD 0⟩

/-- `rect_intersects_polygon`: convert the rectangle to a 4-vertex
polygon and route through `polygon_intersects_polygon`. -/
def rect_intersects_polygon (s1 : RectShape) (s2 : PolygonShape) : Option CollisionInfo :=
  let r := s1.rect
  let rect_vertices : List Vec :=
    [⟨(r.x : ℚ), (r.y : ℚ)⟩, ⟨((r.x + r.w : ℤ) : ℚ), (r.y : ℚ)⟩,
     ⟨((r.x + r.w : ℤ) : ℚ), ((r.y + r.h : ℤ) : ℚ)⟩, ⟨(r.x : ℚ), ((r.y + r.h : ℤ) : ℚ)⟩]
  polygon_intersects_polygon (polygonOfVertices rect_vertices) s2

/-! ## Narrow-phase dispatcher (`CollisionDetector`) -/

/-- Python runtime types that can appear as `CollisionDetector`
registry keys or as `type(argument)` at a `detect` call. The registry
only ever holds the four shape classes; `Engine.update` passes
`GameObject` instances to `detect`, whose (sub)classes are never
registered — they are collapsed into the single `gameObject` kind. -/
inductive PyType where
  | circleShape
  | rectShape
  | lineShape
  | polygonShape
  | gameObject
deriving DecidableEq, Repr

/-- `engine.interfaces.GameObject` as seen by the engine core: identity
(`_id`), type tag, collidability, optional shape, and the result its
`update` call reports for the current tick (`None` or
`GameObjectUpdateRes(object_moved)`), standing for the
application-defined update behavior. -/
structure GObj where
  gid : ℕ
  otype : ℤ
  collidable : Bool
  shape : Option Shape
  updMoved : Option Bool
deriving DecidableEq, Repr

/-- A Python value passed to `CollisionDetector.detect`: either a
collision shape (as the benchmark harness does) or a game object (as
`Engine.update` does). -/
inductive DynVal where
  | shape (s : Shape)
  | obj (o : GObj)
deriving DecidableEq, Repr

/-- `type(v)` as used for the registry lookup. -/
def pyTypeOf : DynVal → PyType
  | .shape (.circle _) => .circleShape
  | .shape (.rect _) => .rectShape
  | .shape (.line _) => .lineShape
  | .shape (.polygon _) => .polygonShape
  | .obj _ => .gameObject

/-- One `CollisionDetector.add(type_a, type_b, handler)` call: the dict
gains the key `(a, b)` and the mirrored key `(b, a)`. (Duplicates in the
list are harmless for membership.) -/
def addPairKeys (ks : List (PyType × PyType)) (k : PyType × PyType) :
    List (PyType × PyType) :=
  ks ++ [(k.1, k.2), (k.2, k.1)]

/-- The `(type_a, type_b)` pairs of `default_detectors`, in registration
order. -/
def defaultDetectorPairs : List (PyType × PyType) :=
  [(.circleShape, .circleShape), (.rectShape, .circleShape),
   (.lineShape, .circleShape), (.polygonShape, .circleShape),
   (.rectShape, .rectShape), (.rectShape, .lineShape),
   (.rectShape, .polygonShape), (.lineShape, .lineShape),
   (.lineShape, .polygonShape), (.polygonShape, .polygonShape)]

/-- The key set of `CollisionDetector._registry` after the default
registrations. -/
def registryKeys : List (PyType × PyType) :=
  defaultDetectorPairs.foldl addPairKeys []

/-- The registered handler closures. For a key `(A, B)` with `A ≠ B` the
direct handler is stored under `(A, B)` and the argument-swapping lambda
under `(B, A)`; for `A = B` the `add` method first stores the direct
handler and immediately overwrites it with the swapping lambda, so the
same-kind entries call the handler with swapped arguments. The final
catch-all is unreachable behind a registered key (registry keys name
only shape classes, and the key is computed from the argument types). -/
def runHandler : DynVal → DynVal → Option CollisionInfo
  | .shape (.circle a), .shape (.circle b) => circle_intersects_circle b a
  | .shape (.rect a), .shape (.circle b) => rect_intersects_circle a b
  | .shape (.circle a), .shape (.rect b) => rect_intersects_circle b a
  | .shape (.line a), .shape (.circle b) => line_intersects_circle a b
  | .shape (.circle a), .shape (.line b) => line_intersects_circle b a
  | .shape (.polygon a), .shape (.circle b) => polygon_intersects_circle a b
  | .shape (.circle a), .shape (.polygon b) => polygon_intersects_circle b a
  | .shape (.rect a), .shape (.rect b) => rect_intersects_rect b a
  | .shape (.rect a), .shape (.line b) => rect_intersects_line a b
  | .shape (.line a), .shape (.rect b) => rect_intersects_line b a
  | .shape (.rect a), .shape (.polygon b) => rect_intersects_polygon a b
  | .shape (.polygon a), .shape (.rect b) => rect_intersects_polygon b a
  | .shape (.line a), .shape (.line b) => line_intersects_line b a
  | .shape (.line a), .shape (.polygon b) => line_intersects_polygon a b
  | .shape (.polygon a), .shape (.line b) => line_intersects_polygon b a
  | .shape (.polygon a), .shape (.polygon b) => polygon_intersects_polygon b a
  | _, _ => none

/-- `CollisionDetector.detect`: dictionary lookup on
`(type(a), type(b))`; a missing key raises `NotImplementedError`
(embedded as `Except.error`), it never returns "no collision". -/
def CollisionDetector.detect (a b : DynVal) : Except Unit (Option CollisionInfo) :=
  if (pyTypeOf a, pyTypeOf b) ∈ registryKeys then .ok (runHandler a b)
  else .error ()

/-! ## Spatial quad tree (`engine/spatial.py`)

Game objects are stored by reference (their `gid`), and every operation
that needs an object's shape dereferences the current heap, exactly as
the Python tree stores object references whose shapes mutate under it. -/

/-- The object store: reference → current object state. -/
def Heap : Type := ℕ → GObj

/-- `spatial.SpatialQuadTree` node. `nodes = none` embeds the unsplit
`[None]*4`; after `split` exactly four children exist (NE, NW, SW, SE).
`vertical_mid`/`horizontal_mid` start at 0 and are set by `split`. -/
inductive QuadTree where
  | node (bounds : Rect) (max_objects max_levels level : ℕ)
      (objects : List ℕ)
      (nodes : Option (QuadTree × QuadTree × QuadTree × QuadTree))
      (vertical_mid horizontal_mid : ℤ)

namespace QuadTree

def bounds : QuadTree → Rect
  | node b _ _ _ _ _ _ _ => b
def max_objects : QuadTree → ℕ
  | node _ m _ _ _ _ _ _ => m
def max_levels : QuadTree → ℕ
  | node _ _ m _ _ _ _ _ => m
def level : QuadTree → ℕ
  | node _ _ _ l _ _ _ _ => l
def objects : QuadTree → List ℕ
  | node _ _ _ _ o _ _ _ => o
def nodes : QuadTree → Option (QuadTree × QuadTree × QuadTree × QuadTree)
  | node _ _ _ _ _ n _ _ => n
def vertical_mid : QuadTree → ℤ
  | node _ _ _ _ _ _ v _ => v
def horizontal_mid : QuadTree → ℤ
  | node _ _ _ _ _ _ _ h => h

/-- `SpatialQuadTree.__init__`. -/
def init (bounds : Rect) (max_objects : ℕ := 10) (max_levels : ℕ := 5)
    (level : ℕ := 0) : QuadTree :=
  node bounds max_objects max_levels level [] none 0 0

/-- Python `set.add` on the reference set (list without duplicates). -/
def addRef (os : List ℕ) (r : ℕ) : List ℕ :=
  if r ∈ os then os else os ++ [r]

/-- `SpatialQuadTree.split`: four children at `level + 1` partitioning
the region by the integer midpoints (NE, NW, SW, SE). -/
def split (t : QuadTree) : QuadTree :=
  match t with
  | node b mo ml lv os _ _ _ =>
    let sub_width := pyFloorDiv b.w 2
    let sub_height := pyFloorDiv b.h 2
    let vm := b.x + sub_width
    let hm := b.y + sub_height
    let ne := init ⟨vm, b.y, sub_width, sub_height⟩ mo ml (lv + 1)
    let nw := init ⟨b.x, b.y, sub_width, sub_height⟩ mo ml (lv + 1)
    let sw := init ⟨b.x, hm, sub_width, sub_height⟩ mo ml (lv + 1)
    let se := init ⟨vm, hm, sub_width, sub_height⟩ mo ml (lv + 1)
    node b mo ml lv os (some (ne, nw, sw, se)) vm hm

/-- `SpatialQuadTree.get_index`: the quadrant fully containing the rect,
or `none` (the source's `-1`) if it straddles a midpoint. Order of the
children: 0 = NE, 1 = NW, 2 = SW, 3 = SE. -/
def get_index (t : QuadTree) (rect : Rect) : Option (Fin 4) :=
  let in_left := rect.right ≤ t.vertical_mid
  let in_right := t.vertical_mid ≤ rect.left
  let in_top := rect.bottom ≤ t.horizontal_mid
  let in_bottom := t.horizontal_mid ≤ rect.top
  if in_left then
    if in_top then some 1
    else if in_bottom then some 2
    else none
  else if in_right then
    if in_top then some 0
    else if in_bottom then some 3
    else none
  else none

def child (ns : QuadTree × QuadTree × QuadTree × QuadTree) : Fin 4 → QuadTree
  | 0 => ns.1
  | 1 => ns.2.1
  | 2 => ns.2.2.1
  | 3 => ns.2.2.2

def setChild (ns : QuadTree × QuadTree × QuadTree × QuadTree) :
    Fin 4 → QuadTree → QuadTree × QuadTree × QuadTree × QuadTree
  | 0, c => (c, ns.2.1, ns.2.2.1, ns.2.2.2)
  | 1, c => (ns.1, c, ns.2.2.1, ns.2.2.2)
  | 2, c => (ns.1, ns.2.1, c, ns.2.2.2)
  | 3, c => (ns.1, ns.2.1, ns.2.2.1, c)

def withObjects (t : QuadTree) (os : List ℕ) : QuadTree :=
  match t with
  | node b mo ml lv _ ns vm hm => node b mo ml lv os ns vm hm

def withNodes (t : QuadTree) (ns : Option (QuadTree × QuadTree × QuadTree × QuadTree)) :
    QuadTree :=
  match t with
  | node b mo ml lv os _ vm hm => node b mo ml lv os ns vm hm

/-- `SpatialQuadTree.insert`. Recursion depth is bounded by the level
budget (`split` only fires while `level < max_levels`), embedded by the
explicit `fuel` argument; the public wrapper `insert` supplies
`max_levels + 2` fuel, which is sufficient for every tree built by these
operations (fuel exhaustion returns the tree unchanged and is
unreachable from the wrapper). After storing locally, an over-capacity
node splits (if not already split) and re-distributes every locally
stored object that now fits a single quadrant. -/
def insertFuel (heap : Heap) : ℕ → QuadTree → ℕ → QuadTree
  | 0, t, _ => t
  | fuel + 1, t, r =>
    match (heap r).shape with
    | none => t
    | some shape =>
      let obj_rect := shape.get_bounding_rect
      if ¬ t.bounds.colliderect obj_rect then t
      else
        -- descend into a child if split and the rect fits one quadrant
        let descended : Option QuadTree :=
          match t.nodes with
          | some ns =>
            match t.get_index obj_rect with
            | some i => some (t.withNodes (some (setChild ns i (insertFuel heap fuel (child ns i) r))))
            | none => none
          | none => none
        match descended with
        | some t' => t'
        | none =>
          let t := t.withObjects (addRef t.objects r)
          if t.objects.length > t.max_objects ∧ t.level < t.max_levels then
            let t := match t.nodes with
              | none => t.split
              | some _ => t
            -- re-distribute: every local object that now fits a quadrant
            -- moves into that child
            t.objects.foldl (fun t r =>
              match (heap r).shape with
              | none => t
              | some shape =>
                let obj_rect := shape.get_bounding_rect
                match t.nodes, t.get_index obj_rect with
                | some ns, some i =>
                  (t.withNodes (some (setChild ns i (insertFuel heap fuel (child ns i) r)))).withObjects
                    (t.objects.filter (fun x => x ≠ r))
                | _, _ => t) t
          else t

def insert (heap : Heap) (t : QuadTree) (r : ℕ) : QuadTree :=
  insertFuel heap (t.max_levels + 2) t r

/-- `SpatialQuadTree._remove_recursive`: discard the reference at every
node whose region collides with the given rect. -/
def removeRecursive : ℕ → QuadTree → ℕ → Rect → QuadTree
  | 0, t, _, _ => t
  | fuel + 1, t, r, obj_rect =>
    if ¬ t.bounds.colliderect obj_rect then t
    else
      let t := t.withObjects (t.objects.filter (fun x => x ≠ r))
      match t.nodes with
      | none => t
      | some (a, b, c, d) =>
        t.withNodes (some (removeRecursive fuel a r obj_rect,
                           removeRecursive fuel b r obj_rect,
                           removeRecursive fuel c r obj_rect,
                           removeRecursive fuel d r obj_rect))

/-- `SpatialQuadTree.remove`: uses the referenced object's CURRENT
bounding rect to decide which nodes to descend into. -/
def remove (heap : Heap) (t : QuadTree) (r : ℕ) : QuadTree :=
  match (heap r).shape with
  | none => t
  | some shape => removeRecursive (t.max_levels + 2) t r shape.get_bounding_rect

/-- `SpatialQuadTree.update_object`: remove then re-insert (the only
repositioning mechanism). Both steps read the object's current — i.e.
already moved — bounding rect. -/
def update_object (heap : Heap) (t : QuadTree) (r : ℕ) : QuadTree :=
  insert heap (remove heap t r) r

/-- `SpatialQuadTree.retrieve`: all references stored at nodes on the
query path (single best-fit child when the region fits one quadrant,
else all children). -/
def retrieveFuel : ℕ → QuadTree → Rect → List ℕ
  | 0, _, _ => []
  | fuel + 1, t, obj_rect =>
    if ¬ t.bounds.colliderect obj_rect then []
    else
      let found := t.objects
      match t.nodes with
      | none => found
      | some (a, b, c, d) =>
        match t.get_index obj_rect with
        | some i =>
          found ++ retrieveFuel fuel (child (a, b, c, d) i) obj_rect
        | none =>
          found ++ retrieveFuel fuel a obj_rect ++ retrieveFuel fuel b obj_rect ++
            retrieveFuel fuel c obj_rect ++ retrieveFuel fuel d obj_rect

def retrieve (t : QuadTree) (obj_rect : Rect) : List ℕ :=
  retrieveFuel (t.max_levels + 2) t obj_rect

end QuadTree

/-! ## Raycaster (`engine/raycast.py`) -/

/-- `create_ray_bounds`: bounding rect of the segment from origin to the
ray endpoint. -/
def create_ray_bounds (start stop : Vec) : Rect :=
  Rect.ofRat (min start.x stop.x) (min start.y stop.y)
    (max start.x stop.x - min start.x stop.x)
    (max start.y stop.y - min start.y stop.y)

/-- The candidate loop of `raycast`: the `len(hits) >= hits_lim` break
is checked BEFORE each candidate is examined. -/
def raycastLoop (heap : Heap) (origin direction : Vec) (max_distance : Option ℚ)
    (hits_lim : ℤ) (ignore_obj_tpyes : List ℤ) :
    List ℕ → List (ℕ × RaycastHit) → List (ℕ × RaycastHit)
  | [], hits => hits
  | r :: rest, hits =>
    if (hits.length : ℤ) ≥ hits_lim then hits
    else
      let o := heap r
      if o.otype ∈ ignore_obj_tpyes then
        raycastLoop heap origin direction max_distance hits_lim ignore_obj_tpyes rest hits
      else if ¬ o.collidable then
        raycastLoop heap origin direction max_distance hits_lim ignore_obj_tpyes rest hits
      else
        match o.shape with
        | none => raycastLoop heap origin direction max_distance hits_lim ignore_obj_tpyes rest hits
        | some shape =>
          match shape.intersects_ray origin direction max_distance with
          | some hit =>
            raycastLoop heap origin direction max_distance hits_lim ignore_obj_tpyes rest
              (hits ++ [(r, hit)])
          | none =>
            raycastLoop heap origin direction max_distance hits_lim ignore_obj_tpyes rest hits

/-- `raycast.raycast`. `max_distance : ℚ` is the finite case; with the
default `float('inf')` the endpoint has infinite coordinates and pygame's
`Rect` constructor cannot even be built (`OverflowError`), so the
finite-distance embedding is the generous reading. `hits_lim = -1` is
documented in the source as "no limit". -/
def raycast (heap : Heap) (spatial_tree : QuadTree) (origin direction : Vec)
    (max_distance : ℚ) (hits_lim : ℤ := -1) (ignore_obj_tpyes : List ℤ := []) :
    List (ℕ × RaycastHit) :=
  let end_point := origin.add (direction.smul max_distance)
  let ray_bounds := create_ray_bounds origin end_point
  let potential_objects := spatial_tree.retrieve ray_bounds
  raycastLoop heap origin direction (some max_distance) hits_lim ignore_obj_tpyes
    potential_objects []

/-! ## Frame orchestrator (`engine/engine.py`)

`Engine` declares `next_obj_id`, `game_objs` and `game_objs_by_type` as
class attributes. The dicts are only ever mutated in place through
`self.` (item assignment/deletion), never rebound on the instance, so
every `Engine` instance aliases the same two class-level dictionaries:
they are embedded as `EngineShared`, one value per Python process.
`self.next_obj_id += 1` reads the class attribute the first time but
writes an instance attribute, so each instance counts ids on its own
(the class value stays 0); only `spatial_tree` is assigned in
`__init__`. Those two are the per-instance `EngineInst`. -/

/-- Insertion-ordered dict: overwrite preserves the key's position
(CPython dict semantics). -/
def dictSet {α β : Type} [DecidableEq α] (d : List (α × β)) (k : α) (v : β) :
    List (α × β) :=
  if d.any (fun e => e.1 = k) then d.map (fun e => if e.1 = k then (k, v) else e)
  else d ++ [(k, v)]

def dictGet {α β : Type} [DecidableEq α] (d : List (α × β)) (k : α) : Option β :=
  (d.find? (fun e => e.1 = k)).map Prod.snd

def dictDel {α β : Type} [DecidableEq α] (d : List (α × β)) (k : α) : List (α × β) :=
  d.filter (fun e => e.1 ≠ k)

/-- The class-level (process-wide) attributes of `Engine`. `game_objs`
maps object id to the object reference; `game_objs_by_type` maps type
tag to such a dict. -/
structure EngineShared where
  next_obj_id : ℕ
  game_objs : List (ℕ × ℕ)
  game_objs_by_type : List (ℤ × List (ℕ × ℕ))
deriving DecidableEq, Repr

/-- The per-instance attributes: the shadowing `next_obj_id` instance
attribute (absent until the first `_next_id` call) and the spatial
tree assigned in `__init__`. -/
structure EngineInst where
  inst_next_obj_id : Option ℕ
  spatial_tree : QuadTree

/-- The class attributes before any registration. -/
def Engine.initialShared : EngineShared := ⟨0, [], []⟩

/-- `Engine.__init__(world_bounds)`. -/
def Engine.newInstance (world_bounds : Rect) : EngineInst :=
  ⟨none, QuadTree.init world_bounds⟩

/-- `Engine._next_id`: read falls back to the class attribute, the
incremented value is written to the instance. -/
def Engine.nextId (sh : EngineShared) (e : EngineInst) : ℕ × EngineInst :=
  let v := e.inst_next_obj_id.getD sh.next_obj_id
  (v, { e with inst_next_obj_id := some (v + 1) })

/-- `Engine.add_game_object(obj)`: assign the id (`setId` mutates the
referenced object), file it in the shared by-type and identity dicts. -/
def Engine.add_game_object (heap : Heap) (sh : EngineShared) (e : EngineInst)
    (ref : ℕ) : Heap × EngineShared × EngineInst × ℕ :=
  let p := Engine.nextId sh e
  let obj_id := p.1
  let obj := heap ref
  let heap' : Heap := fun k => if k = ref then { obj with gid := obj_id } else heap k
  let tbl := (dictGet sh.game_objs_by_type obj.otype).getD []
  let sh' := { sh with
    game_objs_by_type := dictSet sh.game_objs_by_type obj.otype (dictSet tbl obj_id ref)
    game_objs := dictSet sh.game_objs obj_id ref }
  (heap', sh', p.2, obj_id)

/-- `Engine.remove_game_object(obj_id)`: delete from the shared by-type
dict (dropping an emptied bucket) and from the shared identity dict.
The spatial tree is not touched. -/
def Engine.remove_game_object (heap : Heap) (sh : EngineShared) (obj_id : ℕ) :
    EngineShared :=
  match dictGet sh.game_objs obj_id with
  | none => sh
  | some ref =>
    let obj_type := (heap ref).otype
    let byType :=
      match dictGet sh.game_objs_by_type obj_type with
      | none => sh.game_objs_by_type
      | some tbl =>
        if (dictGet tbl obj_id).isSome then
          let tbl' := dictDel tbl obj_id
          if tbl' = [] then dictDel sh.game_objs_by_type obj_type
          else dictSet sh.game_objs_by_type obj_type tbl'
        else sh.game_objs_by_type
    { sh with game_objs_by_type := byType, game_objs := dictDel sh.game_objs obj_id }

/-- `Engine.get_game_object_by_id`: a read of the shared class-level
dict; the instance the method is called on plays no role. -/
def Engine.get_game_object_by_id (sh : EngineShared) (_inst : EngineInst)
    (obj_id : ℕ) : Option ℕ :=
  dictGet sh.game_objs obj_id

/-- `Engine.get_game_objects_by_type`: likewise instance-independent. -/
def Engine.get_game_objects_by_type (sh : EngineShared) (_inst : EngineInst)
    (t : ℤ) : Option (List (ℕ × ℕ)) :=
  dictGet sh.game_objs_by_type t

/-- The inner candidate loop of the collision-detection phase of
`Engine.update`: skip self, call `CollisionDetector.detect` on the two
GAME OBJECTS (not their shapes — this is what the source passes), keep
non-`None` results. There is no `try`/`except`: a raised
`NotImplementedError` propagates and aborts the tick. -/
def detectPairsLoop (heap : Heap) (moved : ℕ) :
    List ℕ → List (CollisionInfo × ℕ × ℕ) → Except Unit (List (CollisionInfo × ℕ × ℕ))
  | [], acc => .ok acc
  | c :: rest, acc =>
    if c = moved then detectPairsLoop heap moved rest acc
    else
      match CollisionDetector.detect (.obj (heap moved)) (.obj (heap c)) with
      | .error e => .error e
      | .ok none => detectPairsLoop heap moved rest acc
      | .ok (some info) => detectPairsLoop heap moved rest (acc ++ [(info, moved, c)])

/-- The outer loop of the collision-detection phase: for every moved
object with a shape, query the tree over its bounding rect and run the
candidate loop. -/
def collectCollisions (heap : Heap) (tree : QuadTree) :
    List ℕ → List (CollisionInfo × ℕ × ℕ) → Except Unit (List (CollisionInfo × ℕ × ℕ))
  | [], acc => .ok acc
  | m :: rest, acc =>
    match (heap m).shape with
    | none => collectCollisions heap tree rest acc
    | some shape =>
      match detectPairsLoop heap m (tree.retrieve shape.get_bounding_rect) acc with
      | .error e => .error e
      | .ok acc' => collectCollisions heap tree rest acc'

/-- `Engine.update(dt)`, one tick. Step 1 (entity update calls) is
external collaborator behavior: the heap passed in is the post-update
object state and `updMoved` the flag each update reported. Step 2
repositions every moved object in the spatial tree, step 3 collects the
collision pairs (in the `Except` monad: an unregistered dispatcher pair
aborts the tick), step 4's paired `on_collision` callbacks are external
effects represented by the returned pair list in dispatch order. -/
def Engine.update (heap : Heap) (sh : EngineShared) (e : EngineInst) :
    Except Unit (EngineInst × List (CollisionInfo × ℕ × ℕ)) :=
  let objs_moved := (sh.game_objs.map Prod.snd).filter
    (fun r => (heap r).updMoved = some true)
  let tree := objs_moved.foldl (fun t r => QuadTree.update_object heap t r) e.spatial_tree
  match collectCollisions heap tree objs_moved [] with
  | .error err => .error err
  | .ok collisions => .ok ({ e with spatial_tree := tree }, collisions)

/-! ## Claim theorems -/

/-- C6: Raycasting against a circle centered at (10,0) with radius 2,
from origin (0,0) along direction (1,0) with no distance limit, returns
a hit at distance 8 with normal (-1,0); the quadratic roots are 8 and
12 and the smaller admissible root is the one chosen. -/
theorem c6_circle_raycast_example :
    CircleShape.intersects_ray ⟨⟨10, 0⟩, 2⟩ ⟨0, 0⟩ ⟨1, 0⟩ none =
      some ⟨⟨8, 0⟩, ⟨-1, 0⟩, 8⟩ ∧
    circleRayRoots ⟨⟨10, 0⟩, 2⟩ ⟨0, 0⟩ ⟨1, 0⟩ = (8, 12) := by
  have h16 : ratSqrt 16 = 4 := by
    unfold ratSqrt
    rw [show ((16 : ℚ).num.toNat) = 16 by norm_num; rfl, show (16 : ℕ) = 4 * 4 from rfl,
      Nat.sqrt_eq, show ((16 : ℚ).den) = 1 by norm_num]
    norm_num
  have h4 : ratSqrt 4 = 2 := by
    unfold ratSqrt
    rw [show ((4 : ℚ).num.toNat) = 4 by norm_num; rfl, show (4 : ℕ) = 2 * 2 from rfl,
      Nat.sqrt_eq, show ((4 : ℚ).den) = 1 by norm_num]
    norm_num
  have hroots : circleRayRoots ⟨⟨10, 0⟩, 2⟩ ⟨0, 0⟩ ⟨1, 0⟩ = (8, 12) := by
    unfold circleRayRoots
    simp only [Vec.sub, Vec.dot]
    norm_num [h16]
  refine ⟨?_, hroots⟩
  unfold CircleShape.intersects_ray
  rw [hroots]
  simp only [Vec.sub, Vec.dot, Vec.add, Vec.smul, Vec.normalize, Vec.divQ, Vec.length,
    Vec.lengthSq, leMax]
  norm_num [h4]

/-- C7: a static physics body ignores `apply_force` entirely (the force
buffer — indeed the whole body — is unchanged) and `integrate` reports
"did not move" and returns the body bit-identically unchanged, its
position included. -/
theorem c7_static_body_immune (b : PhysicsBody) (f : Vec) (dt : ℚ)
    (h : b.is_static = true) :
    b.apply_force f = b ∧
    b.integrate dt = (b, ⟨false⟩) := by
  unfold PhysicsBody.apply_force PhysicsBody.integrate
  rw [h]
  simp

def c7body : PhysicsBody :=
  mkPhysicsBody ⟨5, 6⟩ ⟨1, 1⟩ ⟨0, 0⟩ 2 (1/10) (1/5) true 0 0 (1/10) false 0

theorem c7_static_body_immune_witness :
    c7body.is_static = true ∧
    (c7body.apply_force ⟨3, 4⟩ = c7body ∧
     c7body.integrate 1 = (c7body, ⟨false⟩)) :=
  ⟨rfl, c7_static_body_immune c7body ⟨3, 4⟩ 1 rfl⟩

/-- C8 counterexample: a polygon with only TWO vertices is constructed
successfully — `PolygonShape.__init__` performs no vertex-count
validation, so construction is not rejected. -/
theorem c8_two_vertex_polygon_constructed :
    (PolygonShape.init [⟨0, 0⟩, ⟨2, 0⟩]).isSome = true ∧
    (PolygonShape.init [⟨0, 0⟩]).isSome = true := by
  constructor <;> rfl

/-- C8 amended: polygon construction succeeds for every nonempty vertex
list (in particular for 1 or 2 vertices); only the empty list fails, and
only incidentally (ZeroDivisionError in the centroid computation), not
as a vertex-count precondition. -/
theorem c8_construction_unvalidated (vs : List Vec) :
    (PolygonShape.init vs).isSome = true ↔ vs ≠ [] := by
  unfold PolygonShape.init
  cases vs <;> simp

/-- C10: immediately after construction `inverse_mass` is 0 when the
body is static or `mass ≤ 0`, else `1/mass`; consequently a non-static
body with `mass ≤ 0` has its velocity unchanged by any
`apply_impulse`. -/
theorem c10_inverse_mass_invariant (position velocity acceleration : Vec)
    (mass drag friction : ℚ) (is_static : Bool)
    (rotZ angvel angdrag : ℚ) (enable_rot : Bool) (torque : ℚ) (impulse : Vec) :
    (mkPhysicsBody position velocity acceleration mass drag friction is_static
        rotZ angvel angdrag enable_rot torque).inverse_mass =
      (if is_static = true ∨ mass ≤ 0 then 0 else 1 / mass) ∧
    (mass ≤ 0 →
      ((mkPhysicsBody position velocity acceleration mass drag friction is_static
          rotZ angvel angdrag enable_rot torque).apply_impulse impulse).velocity =
        velocity) := by
  constructor
  · simp [mkPhysicsBody]
  · intro hm
    unfold PhysicsBody.apply_impulse mkPhysicsBody
    cases is_static with
    | true => simp
    | false =>
      simp [hm, Vec.add, Vec.smul]

theorem c10_inverse_mass_invariant_witness :
    ((mkPhysicsBody ⟨0, 0⟩ ⟨3, 4⟩ ⟨0, 0⟩ (-1) (1/10) (1/5) false 0 0 (1/10) false
        0).inverse_mass = (if (false : Bool) = true ∨ (-1 : ℚ) ≤ 0 then 0 else 1 / (-1))) ∧
    ((-1 : ℚ) ≤ 0 ∧
     ((mkPhysicsBody ⟨0, 0⟩ ⟨3, 4⟩ ⟨0, 0⟩ (-1) (1/10) (1/5) false 0 0 (1/10) false
        0).apply_impulse ⟨100, 100⟩).velocity = ⟨3, 4⟩) :=
  ⟨(c10_inverse_mass_invariant ⟨0, 0⟩ ⟨3, 4⟩ ⟨0, 0⟩ (-1) (1/10) (1/5) false 0 0 (1/10)
      false 0 ⟨100, 100⟩).1,
   by decide,
   (c10_inverse_mass_invariant ⟨0, 0⟩ ⟨3, 4⟩ ⟨0, 0⟩ (-1) (1/10) (1/5) false 0 0 (1/10)
      false 0 ⟨100, 100⟩).2 (by decide)⟩

/-- Default object for unused heap slots. -/
def noObj : GObj := ⟨0, 0, false, none, none⟩

def exceptAborted : Except Unit (EngineInst × List (CollisionInfo × ℕ × ℕ)) → Bool
  | .error _ => true
  | .ok _ => false

/-! ### C3: raycast with the default count cap -/

/-- Helper for C3: whatever candidate list the broad phase returns, the
loop with `hits_lim = -1` exits before examining the first candidate. -/
theorem raycastLoop_negOne_eq_nil (heap : Heap) (origin direction : Vec)
    (md : Option ℚ) (ignore : List ℤ) (cands : List ℕ) :
    raycastLoop heap origin direction md (-1) ignore cands [] = [] := by
  cases cands with
  | nil => rfl
  | cons r rest =>
    unfold raycastLoop
    norm_num

/-- C3: with the default `hits_lim = -1` ("no limit" per the source
comment), the break condition `len(hits) >= hits_lim` is true before the
first candidate is looked at, so `raycast` returns the empty list for
EVERY spatial tree, origin, direction, finite distance and ignore set —
it never accumulates any broad-phase candidate's hit. (The other default,
`max_distance = float('inf')`, cannot even reach the loop: the infinite
ray endpoint makes the pygame `Rect` construction raise.) -/
theorem c3_default_cap_yields_no_hits (heap : Heap) (tree : QuadTree)
    (origin direction : Vec) (max_distance : ℚ) (ignore_obj_tpyes : List ℤ) :
    raycast heap tree origin direction max_distance (-1) ignore_obj_tpyes = [] := by
  unfold raycast
  exact raycastLoop_negOne_eq_nil heap origin direction (some max_distance)
    ignore_obj_tpyes _

/-! ### C2: reposition correctness of the spatial index -/

def c2objOld : GObj := ⟨1, 1, true, some (.rect ⟨⟨10, 10, 5, 5⟩⟩), some true⟩
def c2objNew : GObj := ⟨1, 1, true, some (.rect ⟨⟨70, 20, 5, 5⟩⟩), some true⟩
def c2objB : GObj := ⟨2, 1, true, some (.rect ⟨⟨60, 10, 5, 5⟩⟩), some false⟩

/-- Heap before the move: object 1 at the old position. -/
def c2heapOld : Heap := fun r => if r = 1 then c2objOld else if r = 2 then c2objB else noObj

/-- Heap after the move: object 1's shape repositioned. -/
def c2heapNew : Heap := fun r => if r = 1 then c2objNew else if r = 2 then c2objB else noObj

/-- Tree with capacity 1 after inserting both objects — the root has
split and object 1 sits in the NW child, object 2 in the NE child. -/
def c2tree2 : QuadTree :=
  QuadTree.insert c2heapOld (QuadTree.insert c2heapOld (QuadTree.init ⟨0, 0, 100, 100⟩ 1 5 0) 1) 2

/-- The tree after the engine's only repositioning step, `update_object`,
run once the shape has already moved. -/
def c2tree3 : QuadTree := QuadTree.update_object c2heapNew c2tree2 1

/-- C2: after moving object 1 from (10,10,5,5) to the disjoint
(70,20,5,5) and calling `update_object`, retrieval over the NEW box does
return the object — but retrieval over the OLD box STILL returns it:
`remove` descended using the new bounding rect, never reached the NW
child holding the stale reference, and left it there. -/
theorem c2_reposition_leaves_stale_entry :
    (1 ∈ QuadTree.retrieve c2tree3 ⟨70, 20, 5, 5⟩) ∧
    Rect.colliderect ⟨10, 10, 5, 5⟩ ⟨70, 20, 5, 5⟩ = false ∧
    (1 ∈ QuadTree.retrieve c2tree3 ⟨10, 10, 5, 5⟩) := by
  refine ⟨by decide, by decide, by decide⟩

/-! ### C4: unregistering and the spatial index -/

def c4heap0 : Heap :=
  fun r => if r = 5 then ⟨99, 7, true, some (.rect ⟨⟨10, 10, 5, 5⟩⟩), some true⟩ else noObj

def c4add : Heap × EngineShared × EngineInst × ℕ :=
  Engine.add_game_object c4heap0 Engine.initialShared (Engine.newInstance ⟨0, 0, 100, 100⟩) 5

/-- One tick: the object reports "moved", so `update` inserts it into
the spatial tree (its only entry path in the base engine). -/
def c4upd : Except Unit (EngineInst × List (CollisionInfo × ℕ × ℕ)) :=
  Engine.update c4add.1 c4add.2.1 c4add.2.2.1

def c4instAfter : EngineInst :=
  match c4upd with
  | .ok p => p.1
  | .error _ => c4add.2.2.1

/-- The shared registries after `remove_game_object(0)`. -/
def c4shFinal : EngineShared := Engine.remove_game_object c4add.1 c4add.2.1 0

/-- C4: `remove_game_object` removes the entity from the identity index
(by-id and by-type lookups now report not found) but does NOT touch the
spatial tree: a retrieve over the entity's bounding box still returns
it. (The benchmark subclass `QuadTreeEngine.remove_game_object` patches
exactly this omission by calling `spatial_tree.remove` first.) -/
theorem c4_unregister_leaves_spatial_index :
    c4upd.toOption.isSome = true ∧
    Engine.get_game_object_by_id c4shFinal c4instAfter 0 = none ∧
    Engine.get_game_objects_by_type c4shFinal c4instAfter 7 = none ∧
    (5 ∈ QuadTree.retrieve c4instAfter.spatial_tree ⟨10, 10, 5, 5⟩) := by
  refine ⟨by decide, by decide, by decide, by decide⟩

/-! ### C1: unregistered-pair handling -/

def c1heap0 : Heap := fun r =>
  if r = 0 then ⟨50, 7, true, some (.rect ⟨⟨10, 10, 5, 5⟩⟩), some true⟩
  else if r = 1 then ⟨60, 7, true, some (.rect ⟨⟨12, 10, 5, 5⟩⟩), some true⟩
  else noObj

def c1add1 : Heap × EngineShared × EngineInst × ℕ :=
  Engine.add_game_object c1heap0 Engine.initialShared (Engine.newInstance ⟨0, 0, 100, 100⟩) 0

def c1add2 : Heap × EngineShared × EngineInst × ℕ :=
  Engine.add_game_object c1add1.1 c1add1.2.1 c1add1.2.2.1 1

/-- A tick in which two registered objects moved into overlap, so the
collision-detection phase reaches `detect` on a pair with no registered
handler. -/
def c1upd : Except Unit (EngineInst × List (CollisionInfo × ℕ × ℕ)) :=
  Engine.update c1add2.1 c1add2.2.1 c1add2.2.2.1

/-- C1 counterexample: the tick does NOT treat the dispatcher error as a
recoverable skip — `Engine.update` has no `try`/`except`, so the raised
`NotImplementedError` aborts the whole tick (no pair list is produced
and the remaining pairs are never examined). -/
theorem c1_tick_aborts_on_unregistered_pair : exceptAborted c1upd = true := by
  decide

/-- C1 amended: `detect` on any argument pair whose type pair is not in
the registry raises (it never silently reports "no collision"); but
`Engine.update` does not catch the error — the exception propagates out
of the tick (only the benchmark harness wraps `detect` in
`try`/`except`). -/
theorem c1_detect_raises_and_update_propagates :
    (∀ a b : DynVal, (pyTypeOf a, pyTypeOf b) ∉ registryKeys →
      CollisionDetector.detect a b = .error ()) ∧
    exceptAborted c1upd = true := by
  constructor
  · intro a b h
    unfold CollisionDetector.detect
    rw [if_neg h]
  · decide

theorem c1_detect_raises_witness :
    ((PyType.gameObject, PyType.gameObject) ∉ registryKeys) ∧
    CollisionDetector.detect (.obj noObj) (.obj noObj) = .error () :=
  ⟨by decide,
   c1_detect_raises_and_update_propagates.1 (.obj noObj) (.obj noObj) (by decide)⟩

/-! ### C9: scope of the identity registry -/

def c9heap0 : Heap := fun r =>
  if r = 100 then ⟨77, 3, false, none, none⟩
  else if r = 200 then ⟨88, 4, false, none, none⟩
  else noObj

def c9e1 : EngineInst := Engine.newInstance ⟨0, 0, 100, 100⟩
def c9e2 : EngineInst := Engine.newInstance ⟨0, 0, 100, 100⟩

/-- Registration of object 100 through instance `c9e1`. -/
def c9add1 : Heap × EngineShared × EngineInst × ℕ :=
  Engine.add_game_object c9heap0 Engine.initialShared c9e1 100

/-- Registration of object 200 through the OTHER instance `c9e2`,
which still has no instance-level id counter. -/
def c9add2 : Heap × EngineShared × EngineInst × ℕ :=
  Engine.add_game_object c9add1.1 c9add1.2.1 c9e2 200

/-- C9 counterexample: registering object 100 through instance 1
changes what instance 2's identity lookups see — before, id 0 and type
tag 3 are not found through `c9e2`; after, both lookups through `c9e2`
return the object registered through `c9e1`. -/
theorem c9_registration_visible_across_instances :
    Engine.get_game_object_by_id Engine.initialShared c9e2 0 = none ∧
    Engine.get_game_object_by_id c9add1.2.1 c9e2 0 = some 100 ∧
    Engine.get_game_objects_by_type Engine.initialShared c9e2 3 = none ∧
    Engine.get_game_objects_by_type c9add1.2.1 c9e2 3 = some [(0, 100)] := by
  refine ⟨rfl, by decide, rfl, by decide⟩

/-- C9 amended: the identity registry is class-level state shared by
every `Engine` instance of the process — lookups are independent of the
instance they are called on; and since each instance shadows
`next_obj_id` with its own counter starting from the never-incremented
class value 0, two instances assign the SAME id 0, the second
registration overwriting the first one's entry (visible through any
instance). Only `spatial_tree` is per-instance state. -/
theorem c9_registry_is_class_level_shared_state :
    (∀ (sh : EngineShared) (i j : EngineInst) (objId : ℕ),
      Engine.get_game_object_by_id sh i objId = Engine.get_game_object_by_id sh j objId) ∧
    (∀ (sh : EngineShared) (i j : EngineInst) (t : ℤ),
      Engine.get_game_objects_by_type sh i t = Engine.get_game_objects_by_type sh j t) ∧
    c9add1.2.2.2 = 0 ∧ c9add2.2.2.2 = 0 ∧
    Engine.get_game_object_by_id c9add2.2.1 c9add1.2.2.1 0 = some 200 := by
  refine ⟨fun _ _ _ _ => rfl, fun _ _ _ _ => rfl, rfl, by decide, by decide⟩

/-! ### C5: rect–rect collision properties -/

/-- The four directional overlaps of `rect_intersects_rect`. -/
def rrLeftOverlap (s1 s2 : RectShape) : ℤ := (s1.rect.x + s1.rect.w) - s2.rect.x

def rrRightOverlap (s1 s2 : RectShape) : ℤ := (s2.rect.x + s2.rect.w) - s1.rect.x

def rrTopOverlap (s1 s2 : RectShape) : ℤ := (s1.rect.y + s1.rect.h) - s2.rect.y

def rrBottomOverlap (s1 s2 : RectShape) : ℤ := (s2.rect.y + s2.rect.h) - s1.rect.y

/-- The minimal directional overlap is attained at exactly one of the
four directions (no tie). Under this condition the first-minimum index
of the swapped call is the mirror partner of the original one. -/
def rrUniqueMinAxis (s1 s2 : RectShape) : Prop :=
  (rrLeftOverlap s1 s2 < rrRightOverlap s1 s2 ∧ rrLeftOverlap s1 s2 < rrTopOverlap s1 s2 ∧
    rrLeftOverlap s1 s2 < rrBottomOverlap s1 s2) ∨
  (rrRightOverlap s1 s2 < rrLeftOverlap s1 s2 ∧ rrRightOverlap s1 s2 < rrTopOverlap s1 s2 ∧
    rrRightOverlap s1 s2 < rrBottomOverlap s1 s2) ∨
  (rrTopOverlap s1 s2 < rrLeftOverlap s1 s2 ∧ rrTopOverlap s1 s2 < rrRightOverlap s1 s2 ∧
    rrTopOverlap s1 s2 < rrBottomOverlap s1 s2) ∨
  (rrBottomOverlap s1 s2 < rrLeftOverlap s1 s2 ∧ rrBottomOverlap s1 s2 < rrRightOverlap s1 s2 ∧
    rrBottomOverlap s1 s2 < rrTopOverlap s1 s2)



/-- C5 amended: for rectangles with non-negative extents,
`rect_intersects_rect` returns none iff the closed boxes share no point
(i.e. they fail to overlap on some axis); any returned penetration is
the minimum of the four directional overlaps; and the swapped call
yields the mirrored normal PROVIDED the minimal overlap is uniquely
attained — on ties the first-minimum index rule can pick the same
normal for both argument orders. -/
theorem c5_rect_rect_properties (s1 s2 : RectShape)
    (hw1 : 0 ≤ s1.rect.w) (hh1 : 0 ≤ s1.rect.h)
    (hw2 : 0 ≤ s2.rect.w) (hh2 : 0 ≤ s2.rect.h) :
    (rect_intersects_rect s1 s2 = none ↔
      ¬ ∃ p : Vec, s1.rect.containsPt p ∧ s2.rect.containsPt p) ∧
    (∀ info, rect_intersects_rect s1 s2 = some info →
      info.penetration =
        ((min (min (rrLeftOverlap s1 s2) (rrRightOverlap s1 s2))
          (min (rrTopOverlap s1 s2) (rrBottomOverlap s1 s2)) : ℤ) : ℚ)) ∧
    (rrUniqueMinAxis s1 s2 →
      ∀ i1 i2, rect_intersects_rect s1 s2 = some i1 →
        rect_intersects_rect s2 s1 = some i2 →
        i2.normal = i1.normal.neg) := by
  refine ⟨?_, ?_, ?_⟩
  · -- none ↔ no common point
    simp only [rect_intersects_rect]
    split_ifs with h
    · refine iff_of_true rfl ?_
      rintro ⟨p, ⟨a1, a2, a3, a4⟩, ⟨b1, b2, b3, b4⟩⟩
      rcases h with h | h | h | h
      · have hc : ((s1.rect.x + s1.rect.w : ℤ) : ℚ) < ((s2.rect.x : ℤ) : ℚ) := by
          exact_mod_cast h
        linarith
      · have hc : ((s2.rect.x + s2.rect.w : ℤ) : ℚ) < ((s1.rect.x : ℤ) : ℚ) := by
          exact_mod_cast h
        linarith
      · have hc : ((s1.rect.y + s1.rect.h : ℤ) : ℚ) < ((s2.rect.y : ℤ) : ℚ) := by
          exact_mod_cast h
        linarith
      · have hc : ((s2.rect.y + s2.rect.h : ℤ) : ℚ) < ((s1.rect.y : ℤ) : ℚ) := by
          exact_mod_cast h
        linarith
    · refine iff_of_false (by simp) (fun hn => ?_)
      push_neg at h
      obtain ⟨h1, h2, h3, h4⟩ := h
      refine hn ⟨⟨((max s1.rect.x s2.rect.x : ℤ) : ℚ), ((max s1.rect.y s2.rect.y : ℤ) : ℚ)⟩,
        ⟨?_, ?_, ?_, ?_⟩, ⟨?_, ?_, ?_, ?_⟩⟩ <;>
        (rw [Int.cast_le] ; omega)
  · -- penetration = minimum of the four overlaps
    intro info hinfo
    simp only [rect_intersects_rect] at hinfo
    split_ifs at hinfo with h
    obtain rfl := Option.some.inj hinfo
    simp only [rrLeftOverlap, rrRightOverlap, rrTopOverlap, rrBottomOverlap]
  · -- mirrored normal under a unique minimal axis
    intro hu i1 i2 h1 h2
    simp only [rect_intersects_rect] at h1 h2
    split_ifs at h1 with hsep1
    split_ifs at h2 with hsep2
    obtain rfl := Option.some.inj h1
    obtain rfl := Option.some.inj h2
    simp only [rrUniqueMinAxis, rrLeftOverlap, rrRightOverlap, rrTopOverlap,
      rrBottomOverlap] at hu
    rcases hu with ⟨ha, hb, hc⟩ | ⟨ha, hb, hc⟩ | ⟨ha, hb, hc⟩ | ⟨ha, hb, hc⟩
    · have e1 : firstMinIdx4 (s1.rect.x + s1.rect.w - s2.rect.x) (s2.rect.x + s2.rect.w - s1.rect.x)
          (s1.rect.y + s1.rect.h - s2.rect.y) (s2.rect.y + s2.rect.h - s1.rect.y) = 0 := by
        unfold firstMinIdx4; split_ifs <;> omega
      have e2 : firstMinIdx4 (s2.rect.x + s2.rect.w - s1.rect.x) (s1.rect.x + s1.rect.w - s2.rect.x)
          (s2.rect.y + s2.rect.h - s1.rect.y) (s1.rect.y + s1.rect.h - s2.rect.y) = 1 := by
        unfold firstMinIdx4; split_ifs <;> omega
      rw [e1, e2]
      simp [Vec.neg]
    · have e1 : firstMinIdx4 (s1.rect.x + s1.rect.w - s2.rect.x) (s2.rect.x + s2.rect.w - s1.rect.x)
          (s1.rect.y + s1.rect.h - s2.rect.y) (s2.rect.y + s2.rect.h - s1.rect.y) = 1 := by
        unfold firstMinIdx4; split_ifs <;> omega
      have e2 : firstMinIdx4 (s2.rect.x + s2.rect.w - s1.rect.x) (s1.rect.x + s1.rect.w - s2.rect.x)
          (s2.rect.y + s2.rect.h - s1.rect.y) (s1.rect.y + s1.rect.h - s2.rect.y) = 0 := by
        unfold firstMinIdx4; split_ifs <;> omega
      rw [e1, e2]
      simp [Vec.neg]
    · have e1 : firstMinIdx4 (s1.rect.x + s1.rect.w - s2.rect.x) (s2.rect.x + s2.rect.w - s1.rect.x)
          (s1.rect.y + s1.rect.h - s2.rect.y) (s2.rect.y + s2.rect.h - s1.rect.y) = 2 := by
        unfold firstMinIdx4; split_ifs <;> omega
      have e2 : firstMinIdx4 (s2.rect.x + s2.rect.w - s1.rect.x) (s1.rect.x + s1.rect.w - s2.rect.x)
          (s2.rect.y + s2.rect.h - s1.rect.y) (s1.rect.y + s1.rect.h - s2.rect.y) = 3 := by
        unfold firstMinIdx4; split_ifs <;> omega
      rw [e1, e2]
      simp [Vec.neg]
    · have e1 : firstMinIdx4 (s1.rect.x + s1.rect.w - s2.rect.x) (s2.rect.x + s2.rect.w - s1.rect.x)
          (s1.rect.y + s1.rect.h - s2.rect.y) (s2.rect.y + s2.rect.h - s1.rect.y) = 3 := by
        unfold firstMinIdx4; split_ifs <;> omega
      have e2 : firstMinIdx4 (s2.rect.x + s2.rect.w - s1.rect.x) (s1.rect.x + s1.rect.w - s2.rect.x)
          (s2.rect.y + s2.rect.h - s1.rect.y) (s1.rect.y + s1.rect.h - s2.rect.y) = 2 := by
        unfold firstMinIdx4; split_ifs <;> omega
      rw [e1, e2]
      simp [Vec.neg]

instance (s1 s2 : RectShape) : Decidable (rrUniqueMinAxis s1 s2) := by
  unfold rrUniqueMinAxis; infer_instance

def c5tieA : RectShape := ⟨⟨0, 0, 4, 4⟩⟩
def c5tieB : RectShape := ⟨⟨1, 0, 2, 4⟩⟩

/-- C5 counterexample: with tied minimal overlaps (left and right both
equal 3 for these two distinct rectangles), both argument orders return
the SAME normal (-1,0) — not the mirrored one the claim demands for
every pair. -/
theorem c5_tie_not_mirrored :
    (rect_intersects_rect c5tieA c5tieB).map CollisionInfo.normal = some ⟨-1, 0⟩ ∧
    (rect_intersects_rect c5tieB c5tieA).map CollisionInfo.normal = some ⟨-1, 0⟩ ∧
    some (Vec.mk (-1) 0) ≠ some (Vec.neg ⟨-1, 0⟩) := by
  refine ⟨by decide, by decide, by decide⟩

def c5W1 : RectShape := ⟨⟨0, 0, 4, 4⟩⟩
def c5W2 : RectShape := ⟨⟨3, 0, 4, 4⟩⟩
def c5i1 : CollisionInfo := ⟨[⟨3, 2⟩], ⟨-1, 0⟩, 1⟩
def c5i2 : CollisionInfo := ⟨[⟨4, 2⟩], ⟨1, 0⟩, 1⟩

theorem c5eq1 : rect_intersects_rect c5W1 c5W2 = some c5i1 := by
  norm_num [rect_intersects_rect, firstMinIdx4, c5W1, c5W2, c5i1]

theorem c5eq2 : rect_intersects_rect c5W2 c5W1 = some c5i2 := by
  norm_num [rect_intersects_rect, firstMinIdx4, c5W2, c5W1, c5i2]

theorem c5_rect_rect_properties_witness :
    ((0 : ℤ) ≤ c5W1.rect.w ∧ (0 : ℤ) ≤ c5W1.rect.h ∧
     (0 : ℤ) ≤ c5W2.rect.w ∧ (0 : ℤ) ≤ c5W2.rect.h) ∧
    rrUniqueMinAxis c5W1 c5W2 ∧
    c5i2.normal = c5i1.normal.neg :=
  ⟨⟨by decide, by decide, by decide, by decide⟩, by decide,
   (c5_rect_rect_properties c5W1 c5W2 (by decide) (by decide) (by decide)
      (by decide)).2.2 (by decide) c5i1 c5i2 c5eq1 c5eq2⟩
